import Mathlib

/-!
Shallow embedding of the TransmitanceSuite repository.

Arrays of rationals stand for numpy float arrays.  `NpArray` models an
array of arbitrary shape by its shape vector together with its row-major
flat data; `Arr` models the one- or two-dimensional arrays handled by the
1D subclass.  Python failure paths (print plus sentinel return, or a
raised exception) are rendered as `Except` errors.  The scipy
interpolation and fitting routines are external to the repository and
enter the embedding as function parameters.
-/

/-- Numpy array of arbitrary shape: shape vector plus row-major flat data. -/
structure NpArray where
  shape : List ℕ
  data : List ℚ
  deriving DecidableEq

/-- A Python value as passed to the base constructor: a numpy array or anything else
(the latter trips the type check ERR0 of TransmitanceMeas.__init__). -/
inductive PyVal where
  | arr (a : NpArray)
  | nonArray
  deriving DecidableEq

/-- Error labels used by the repository functions.  ERRn mirrors the printed
message of the corresponding source function; `badAxis` and `badLine` stand for
the two rejection messages of sort_bidimensional_array_mutually;
`AttributeError` models a Python AttributeError on a never-assigned attribute;
`notAvailable` models the availability message of get_refInterpolator. -/
inductive PyErr where
  | ERR0
  | ERR1
  | ERR2
  | ERR3
  | ERR4
  | badAxis
  | badLine
  | AttributeError
  | notAvailable
  deriving DecidableEq

/-- Entrywise addition of a scalar, numpy `arr + offset`. -/
def NpArray.addOffset (a : NpArray) (c : ℚ) : NpArray :=
  { shape := a.shape, data := a.data.map (fun x => x + c) }

/-- State of a TransmitanceMeas instance: the stored (offset-applied) arrays.
`dep = none` models `dep_is_available_ = False`. -/
structure TransmitanceMeas where
  ref : NpArray
  meas : NpArray
  dep : Option NpArray
  deriving DecidableEq

/-- TransmitanceMeas.__init__ (TransmitanceMeas.py lines 25-45): type check,
shape check of ref against meas, optional shape check of dep, then storage of
the offset-applied arrays. -/
def TransmitanceMeas.init (ref meas : PyVal) (ref_offset meas_offset : ℚ)
    (dep : Option NpArray) : Except PyErr TransmitanceMeas :=
  match ref, meas with
  | PyVal.arr a, PyVal.arr b =>
    if a.shape ≠ b.shape then Except.error PyErr.ERR1
    else
      match dep with
      | some d =>
        if d.shape ≠ a.shape then Except.error PyErr.ERR2
        else Except.ok { ref := a.addOffset ref_offset, meas := b.addOffset meas_offset, dep := some d }
      | none => Except.ok { ref := a.addOffset ref_offset, meas := b.addOffset meas_offset, dep := none }
  | _, _ => Except.error PyErr.ERR0

/-- TransmitanceMeas.check_compatibility (lines 74-83). -/
def TransmitanceMeas.check_compatibility (t : TransmitanceMeas) : Bool :=
  match t.dep with
  | some d => t.ref.shape == t.meas.shape && t.ref.shape == d.shape
  | none => t.ref.shape == t.meas.shape

/-- TransmitanceMeas.get_transmitance (lines 85-93): the entrywise quotient
meas over ref when the shapes are compatible. -/
def TransmitanceMeas.get_transmitance (t : TransmitanceMeas) : Except PyErr NpArray :=
  if t.check_compatibility then
    Except.ok { shape := t.meas.shape, data := List.zipWith (fun m r => m / r) t.meas.data t.ref.data }
  else Except.error PyErr.ERR0

/-- One- or two-dimensional numpy array, as handled by TransmitanceMeas1D. -/
inductive Arr where
  | one (xs : List ℚ)
  | two (rows : List (List ℚ))
  deriving DecidableEq

/-- numpy.ndim restricted to the two supported ranks. -/
def Arr.ndim : Arr → ℕ
  | .one _ => 1
  | .two _ => 2

/-- numpy.shape: a length for a 1-D array, rows then columns for a 2-D one. -/
def Arr.shape : Arr → List ℕ
  | .one xs => [xs.length]
  | .two rows => [rows.length, (rows.headD []).length]

/-- Rectangularity: the list of lists models a genuine 2-D numpy array. -/
def Arr.WF : Arr → Prop
  | .one _ => True
  | .two rows => ∀ r ∈ rows, r.length = (rows.headD []).length

/-- numpy.expand_dims for a 1-D array; the axis boolean encodes 0 as false and
1 as true, as the source documents for stick_together. -/
def expand_dims (xs : List ℚ) (axis : Bool) : List (List ℚ) :=
  if axis then xs.map (fun x => [x]) else [xs]

/-- numpy.concatenate of two 2-D arrays along the given axis. -/
def np_concatenate (m1 m2 : List (List ℚ)) (axis : Bool) : List (List ℚ) :=
  if axis then List.zipWith (fun r1 r2 => r1 ++ r2) m1 m2 else m1 ++ m2

/-- Index selected by `not axis` under the numpy booleans: not 0 is 1, not 1 is 0. -/
def idxNot (axis : Bool) : ℕ := if axis then 0 else 1

/-- Size of a stick_together operand along the non-target axis: for a 2-D
operand its shape entry at `not axis`, for a 1-D operand its length (which is
its extent along `not axis` once expanded at `axis`). -/
def Arr.sizeAlongNot (axis : Bool) : Arr → ℕ
  | .one xs => xs.length
  | .two rows => (Arr.shape (.two rows)).getD (idxNot axis) 0

/-- TransmitanceMeas1D.stick_together (TransmitanceMeas1D.py lines 275-323).
The argument type check ERR0 and the rank check ERR1 cannot fire for `Arr`
values.  In the mixed 1-D and 2-D case the source always concatenates the
expanded 1-D operand first, whichever argument position it occupied. -/
def stick_together (arr1 arr2 : Arr) (axis : Bool) : Except PyErr Arr :=
  match arr1, arr2 with
  | .two m1, .two m2 =>
    if (Arr.shape (.two m1)).getD (idxNot axis) 0 ≠ (Arr.shape (.two m2)).getD (idxNot axis) 0 then
      Except.error PyErr.ERR2
    else Except.ok (.two (np_concatenate m1 m2 axis))
  | .one xs, .two m =>
    if xs.length ≠ (Arr.shape (.two m)).getD (idxNot axis) 0 then Except.error PyErr.ERR3
    else Except.ok (.two (np_concatenate (expand_dims xs axis) m axis))
  | .two m, .one xs =>
    if xs.length ≠ (Arr.shape (.two m)).getD (idxNot axis) 0 then Except.error PyErr.ERR3
    else Except.ok (.two (np_concatenate (expand_dims xs axis) m axis))
  | .one xs, .one ys =>
    if xs.length ≠ ys.length then Except.error PyErr.ERR4
    else Except.ok (.two (np_concatenate (expand_dims xs axis) (expand_dims ys axis) axis))

/-- numpy.argsort modelled as a sort of the index range by key value; the
source relies only on it yielding an ordering permutation of the indices. -/
def argsort (keys : List ℚ) : List ℕ :=
  List.insertionSort (fun i j => keys.getD i 0 ≤ keys.getD j 0) (List.range keys.length)

/-- TransmitanceMeas1D.sort_bidimensional_array_mutually (lines 234-273).
Note that the source validates `line` against shape[axis] although it then uses
`line` to index along the other dimension.  The in-place loop over columns
(rows) writes each column (each row entry) once from its own pre-call values,
so it amounts to the single permutation written here. -/
def sort_bidimensional_array_mutually (bid_array : List (List ℚ)) (axis : ℕ) (line : ℤ) :
    Except PyErr (List (List ℚ)) :=
  if axis ≠ 0 ∧ axis ≠ 1 then Except.error PyErr.badAxis
  else if line < 0 then Except.error PyErr.badLine
  else if axis = 0 ∧ (bid_array.length : ℤ) ≤ line then Except.error PyErr.badLine
  else if axis = 1 ∧ ((bid_array.headD []).length : ℤ) ≤ line then Except.error PyErr.badLine
  else if axis = 0 then
    Except.ok ((argsort (bid_array.map (fun r => r.getD line.toNat 0))).map
      (fun j => bid_array.getD j []))
  else
    Except.ok (bid_array.map (fun r => (argsort (bid_array.getD line.toNat [])).map
      (fun j => r.getD j 0)))

/-- The caller array after a call to sort_bidimensional_array_mutually: the
source aliases its input (`sorted_array = bid_array`) and writes into it, so on
success the caller array has become the returned array; every failure path
returns before any write. -/
def sort_bidimensional_array_mutually_after (bid_array : List (List ℚ)) (axis : ℕ) (line : ℤ) :
    List (List ℚ) :=
  match sort_bidimensional_array_mutually bid_array axis line with
  | Except.ok r => r
  | Except.error _ => bid_array

/-- State of a TransmitanceMeas1D instance.  `refInterpolator = none` models
the attribute `refInterpolator_` never having been assigned; reading it then
raises AttributeError. -/
structure TransmitanceMeas1D where
  ref : List ℚ
  meas : List ℚ
  dep : Option (List ℚ)
  raw_ref : Option Arr
  raw_meas : Option Arr
  fInterpolator : Bool
  refInterpolator : Option (ℚ → ℚ)

/-- TransmitanceMeas1D.__init__ (TransmitanceMeas1D.py lines 10-79).  `spline`
stands for scipy.interpolate.CubicSpline.  In the branch with no supplied
interpolator but available dep (source lines 71-73), the source stores the
freshly built spline `spline ds xs` into the flag field `fInterpolator_` and
immediately overwrites that field with True, so the spline is discarded and the
attribute `refInterpolator_` is never assigned: the model sets the flag and
leaves `refInterpolator := none` there.  The trailing call to the base
initializer re-checks conditions already established and stores the
offset-applied arrays. -/
def TransmitanceMeas1D.init (spline : List ℚ → List ℚ → ℚ → ℚ)
    (ref meas : Arr) (ref_offset meas_offset : ℚ)
    (dep : Option Arr) (raw_ref raw_meas : Option Arr)
    (refInterpolator : Option (ℚ → ℚ)) : Except PyErr TransmitanceMeas1D :=
  match ref, meas with
  | Arr.two _, _ => Except.error PyErr.ERR0
  | Arr.one _, Arr.two _ => Except.error PyErr.ERR1
  | Arr.one xs, Arr.one ms =>
    if xs.length ≠ ms.length then Except.error PyErr.ERR1
    else
      match dep with
      | some (Arr.two _) => Except.error PyErr.ERR2
      | some (Arr.one ds) =>
        if xs.length ≠ ds.length then Except.error PyErr.ERR2
        else
          Except.ok
            { ref := xs.map (fun x => x + ref_offset)
              meas := ms.map (fun x => x + meas_offset)
              dep := some ds
              raw_ref := raw_ref
              raw_meas := raw_meas
              fInterpolator := true
              refInterpolator := refInterpolator }
      | none =>
        Except.ok
          { ref := xs.map (fun x => x + ref_offset)
            meas := ms.map (fun x => x + meas_offset)
            dep := none
            raw_ref := raw_ref
            raw_meas := raw_meas
            fInterpolator := refInterpolator.isSome
            refInterpolator := refInterpolator }

/-- TransmitanceMeas1D.get_refInterpolator (lines 93-98): reads the attribute
`refInterpolator_` when the flag is set; when that attribute was never
assigned Python raises AttributeError. -/
def TransmitanceMeas1D.get_refInterpolator (t : TransmitanceMeas1D) : Except PyErr (ℚ → ℚ) :=
  if t.fInterpolator then
    match t.refInterpolator with
    | some f => Except.ok f
    | none => Except.error PyErr.AttributeError
  else Except.error PyErr.notAvailable

/-- TransmitanceMeas1D.from_ragged_data (lines 100-166).  `spline` stands for
scipy.interpolate.CubicSpline and `curve_fit` for scipy.optimize.curve_fit
returning the two fitted parameters.  The raw reference pair is stacked along
axis 1, the raw with-filter pair with the default axis 0. -/
def TransmitanceMeas1D.from_ragged_data (spline : List ℚ → List ℚ → ℚ → ℚ)
    (curve_fit : (ℚ → ℚ → ℚ → ℚ) → List ℚ → List ℚ → ℚ × ℚ)
    (dep_ref ref dep_meas meas : Arr) (ref_offset meas_offset : ℚ)
    (ref_ref_func : Option (ℚ → ℚ)) : Except PyErr TransmitanceMeas1D :=
  match dep_ref, ref, dep_meas, meas with
  | Arr.one ddr, Arr.one r, Arr.one dm, Arr.one ms =>
    if ddr.length ≠ r.length ∨ dm.length ≠ ms.length then Except.error PyErr.ERR2
    else
      let raw_dep_ref := ddr
      let raw_ref := r.map (fun x => x + ref_offset)
      let ref_func : ℚ → ℚ :=
        match ref_ref_func with
        | none => spline raw_dep_ref raw_ref
        | some g =>
          let popt := curve_fit (fun x sca off => sca * (off + g x)) raw_dep_ref raw_ref
          fun x => popt.1 * (popt.2 + g x)
      let dep := dm
      let meas2 := ms.map (fun x => x + meas_offset)
      let new_ref := dep.map ref_func
      match stick_together (Arr.one raw_dep_ref) (Arr.one raw_ref) true with
      | Except.error e => Except.error e
      | Except.ok raw_ref2 =>
        match stick_together (Arr.one dep) (Arr.one meas2) false with
        | Except.error e => Except.error e
        | Except.ok raw_meas2 =>
          TransmitanceMeas1D.init spline (Arr.one new_ref) (Arr.one meas2) 0 0
            (some (Arr.one dep)) (some raw_ref2) (some raw_meas2) (some ref_func)
  | _, _, _, _ => Except.error PyErr.ERR1

/-- TransmitanceMeas1D.default_parser (lines 208-232), modelled from the point
where pandas has read the file into a table of rationals: the rows after the
skipped header line, of which row 0 is the dark-current row.  The
string-to-float conversion of the x column is the identity in this model. -/
def default_parse (table : List (List ℚ)) (x_col y_col : ℕ) : Except PyErr (List ℚ × List ℚ) :=
  let offset := (table.getD 0 []).getD 1 0
  let data := (table.drop 1).map (fun r => r.set y_col (r.getD y_col 0 - offset))
  match sort_bidimensional_array_mutually data 0 (x_col : ℤ) with
  | Except.error e => Except.error e
  | Except.ok d => Except.ok (d.map (fun r => r.getD x_col 0), d.map (fun r => r.getD y_col 0))

/-- numpy.prod of a boolean mask, as from_files uses it: the product of the
0 or 1 indicator values. -/
def npProd (bs : List Bool) : ℕ :=
  (bs.map (fun b => if b then 1 else 0)).prod

/-- The compatibility test of from_files (lines 193-196): equal lengths, and
numpy.prod over the entrywise equality mask equal to 1. -/
def npCompatible (xs ys : List ℚ) : Bool :=
  xs.length == ys.length && npProd (List.zipWith (fun a b => a == b) xs ys) == 1

/-- TransmitanceMeas1D.from_files (lines 168-206), taken at the parse
boundary: the default_parser outputs for the two primary files enter as
already-parsed pairs and `third` is the parsed pair of the optional
shape-reference file, whose cubic-spline interpolant becomes the
referenceShapeFunction of the ragged path. -/
def TransmitanceMeas1D.from_files (spline : List ℚ → List ℚ → ℚ → ℚ)
    (curve_fit : (ℚ → ℚ → ℚ → ℚ) → List ℚ → List ℚ → ℚ × ℚ)
    (dep_ref ref dep_meas meas : List ℚ)
    (third : Option (List ℚ × List ℚ)) : Except PyErr TransmitanceMeas1D :=
  if npCompatible dep_ref dep_meas then
    TransmitanceMeas1D.init spline (Arr.one ref) (Arr.one meas) 0 0
      (some (Arr.one dep_ref)) none none none
  else
    match third with
    | some p =>
      TransmitanceMeas1D.from_ragged_data spline curve_fit (Arr.one dep_ref) (Arr.one ref)
        (Arr.one dep_meas) (Arr.one meas) 0 0 (some (spline p.1 p.2))
    | none =>
      TransmitanceMeas1D.from_ragged_data spline curve_fit (Arr.one dep_ref) (Arr.one ref)
        (Arr.one dep_meas) (Arr.one meas) 0 0 none

/-- from_files as the specification words it: the two independent arrays are
aligned exactly when they have equal length and are entrywise equal, and the
dispatch is the same as in the source. -/
def TransmitanceMeas1D.from_files_spec (spline : List ℚ → List ℚ → ℚ → ℚ)
    (curve_fit : (ℚ → ℚ → ℚ → ℚ) → List ℚ → List ℚ → ℚ × ℚ)
    (dep_ref ref dep_meas meas : List ℚ)
    (third : Option (List ℚ × List ℚ)) : Except PyErr TransmitanceMeas1D :=
  if dep_ref.length == dep_meas.length && dep_ref == dep_meas then
    TransmitanceMeas1D.init spline (Arr.one ref) (Arr.one meas) 0 0
      (some (Arr.one dep_ref)) none none none
  else
    match third with
    | some p =>
      TransmitanceMeas1D.from_ragged_data spline curve_fit (Arr.one dep_ref) (Arr.one ref)
        (Arr.one dep_meas) (Arr.one meas) 0 0 (some (spline p.1 p.2))
    | none =>
      TransmitanceMeas1D.from_ragged_data spline curve_fit (Arr.one dep_ref) (Arr.one ref)
        (Arr.one dep_meas) (Arr.one meas) 0 0 none

/-- Runtime type tag of a collected Python object. -/
abbrev TypeTag := ℕ

/-- A collected Python object: its runtime type tag and a payload. -/
structure PyObj where
  tag : TypeTag
  val : ℤ
  deriving DecidableEq

/-- State of an ObjectCollection instance (ObjectCollection.py). -/
structure ObjectCollection where
  member_types : List TypeTag
  fRestrictive : Bool
  fRestrictivenessIsLocked : Bool
  name : String
  ID : ℕ
  members : List PyObj
  deriving DecidableEq

/-- ObjectCollection.set_collection_name (lines 49-51). -/
def set_collection_name (s : ObjectCollection) (new_name : String) : ObjectCollection :=
  { s with name := new_name }

/-- ObjectCollection.lock_restrictiveness (lines 59-64). -/
def lock_restrictiveness (s : ObjectCollection) : ObjectCollection :=
  { s with fRestrictivenessIsLocked := true }

/-- ObjectCollection.switch_restrictiveness (lines 66-81): when unlocked,
switching from unrestrictive first appends the missing member types in member
order, then the flag is flipped; when locked nothing changes. -/
def switch_restrictiveness (s : ObjectCollection) : ObjectCollection :=
  if s.fRestrictivenessIsLocked then s
  else
    let grown :=
      s.members.foldl (fun acc m => if m.tag ∈ acc then acc else acc ++ [m.tag]) s.member_types
    let s1 := if s.fRestrictive = false then { s with member_types := grown } else s
    { s1 with fRestrictive := !s1.fRestrictive }

/-- ObjectCollection.try_adding_an_element (lines 86-97). -/
def try_adding_an_element (s : ObjectCollection) (x : PyObj) : ObjectCollection :=
  if s.fRestrictive = false then { s with members := s.members ++ [x] }
  else if x.tag ∈ s.member_types then { s with members := s.members ++ [x] }
  else s

/-- An operation a caller can perform on a collection after construction. -/
inductive CollectionOp where
  | setName (n : String)
  | lock
  | switch
  | tryAdd (x : PyObj)

/-- Apply one collection operation. -/
def applyOp (op : CollectionOp) (s : ObjectCollection) : ObjectCollection :=
  match op with
  | CollectionOp.setName n => set_collection_name s n
  | CollectionOp.lock => lock_restrictiveness s
  | CollectionOp.switch => switch_restrictiveness s
  | CollectionOp.tryAdd x => try_adding_an_element s x

/-- Apply a sequence of collection operations, first element first. -/
def applyOps (ops : List CollectionOp) (s : ObjectCollection) : ObjectCollection :=
  ops.foldl (fun a op => applyOp op a) s

/-- Observation helper: the ok payload of an Except value. -/
def okOf {ε α : Type _} : Except ε α → Option α
  | Except.ok a => some a
  | Except.error _ => none

/-- Observation helper: the error payload of an Except value. -/
def errOf {ε α : Type _} : Except ε α → Option ε
  | Except.ok _ => none
  | Except.error e => some e

/-- Sample stored RatioMeasurement state used to witness the ratio theorem. -/
def c2sample : TransmitanceMeas :=
  { ref := { shape := [2], data := [4, 6] }
    meas := { shape := [2], data := [1, 3] }
    dep := some { shape := [2], data := [7, 8] } }

/-- Sample parsed table used to witness the dark-current theorem: a
dark-current row followed by three data rows, x column 2, y column 0. -/
def c10table : List (List ℚ) :=
  [[99, 5, 0], [7, 1, 30], [4, 2, 20], [6, 3, 10]]

/-- getD commutes with map at in-range indices, for any defaults. -/
theorem list_getD_map {α β : Type _} (f : α → β) (l : List α) (i : ℕ) (d : α) (d2 : β)
    (h : i < l.length) : (l.map f).getD i d2 = f (l.getD i d) := by
  induction l generalizing i with
  | nil => simp at h
  | cons a t ih =>
    cases i with
    | zero => simp
    | succ n =>
      simp only [List.map, List.getD_cons_succ]
      exact ih n (by simpa using h)

/-- getD at an index other than the one written by set. -/
theorem list_getD_set_ne {α : Type _} (l : List α) (i j : ℕ) (a d : α) (h : i ≠ j) :
    (l.set i a).getD j d = l.getD j d := by
  induction l generalizing i j with
  | nil => simp
  | cons b t ih =>
    cases i with
    | zero =>
      cases j with
      | zero => exact absurd rfl h
      | succ m => simp [List.set]
    | succ n =>
      cases j with
      | zero => simp [List.set]
      | succ m =>
        simp only [List.set, List.getD_cons_succ]
        exact ih n m (fun hh => h (by rw [hh]))

/-- getD at the index written by set, when that index is in range. -/
theorem list_getD_set_self {α : Type _} (l : List α) (i : ℕ) (a d : α) (h : i < l.length) :
    (l.set i a).getD i d = a := by
  induction l generalizing i with
  | nil => simp at h
  | cons b t ih =>
    cases i with
    | zero => simp [List.set]
    | succ n =>
      simp only [List.set, List.getD_cons_succ]
      exact ih n (by simpa using h)

/-- getD at an in-range index is an element of the list. -/
theorem list_getD_mem {α : Type _} (l : List α) (i : ℕ) (d : α) (h : i < l.length) :
    l.getD i d ∈ l := by
  induction l generalizing i with
  | nil => simp at h
  | cons b t ih =>
    cases i with
    | zero => simp
    | succ n =>
      simp only [List.getD_cons_succ]
      exact List.mem_cons_of_mem _ (ih n (by simpa using h))

/-- argsort yields a permutation of the index range. -/
theorem argsort_perm (keys : List ℚ) :
    List.Perm (argsort keys) (List.range keys.length) :=
  List.perm_insertionSort _ _

/-- argsort preserves the number of indices. -/
theorem argsort_length (keys : List ℚ) : (argsort keys).length = keys.length := by
  simpa using (argsort_perm keys).length_eq

/-- Every in-range entry of argsort is an in-range index. -/
theorem argsort_getD_lt (keys : List ℚ) (i : ℕ) (h : i < keys.length) :
    (argsort keys).getD i 0 < keys.length := by
  have hmem : (argsort keys).getD i 0 ∈ argsort keys :=
    list_getD_mem _ _ _ (by rw [argsort_length]; exact h)
  have := (argsort_perm keys).mem_iff.mp hmem
  simpa [List.mem_range] using this

/-- npProd unfolds on a cons cell. -/
theorem npProd_cons (b : Bool) (bs : List Bool) :
    npProd (b :: bs) = (if b then 1 else 0) * npProd bs := by
  simp [npProd]

/-- The indicator product is 1 exactly when every mask entry is true. -/
theorem npProd_eq_one_iff (bs : List Bool) : npProd bs = 1 ↔ ∀ b ∈ bs, b = true := by
  induction bs with
  | nil => simp [npProd]
  | cons b t ih =>
    rw [npProd_cons]
    cases b
    · simp
    · simpa using ih

/-- For equal-length lists, an all-true entrywise equality mask means the
lists are equal. -/
theorem zip_all_eq_iff (xs ys : List ℚ) (h : xs.length = ys.length) :
    (∀ b ∈ List.zipWith (fun a b => a == b) xs ys, b = true) ↔ xs = ys := by
  induction xs generalizing ys with
  | nil =>
    cases ys with
    | nil => simp
    | cons b u => simp at h
  | cons a t ih =>
    cases ys with
    | nil => simp at h
    | cons b u =>
      simp only [List.zipWith_cons_cons, List.mem_cons, List.cons.injEq]
      constructor
      · intro hall
        have h1 : (a == b) = true := hall _ (Or.inl rfl)
        have h2 := (ih u (by simpa using h)).mp (fun x hx => hall x (Or.inr hx))
        exact ⟨by simpa using h1, h2⟩
      · rintro ⟨h1, h2⟩
        intro x hx
        rcases hx with hx | hx
        · subst hx; simpa using h1
        · exact (ih u (by simpa using h)).mpr h2 x hx

/-- The from_files compatibility test holds exactly for equal lists. -/
theorem npCompatible_iff (xs ys : List ℚ) : npCompatible xs ys = true ↔ xs = ys := by
  constructor
  · intro h
    simp only [npCompatible, Bool.and_eq_true, beq_iff_eq] at h
    obtain ⟨h1, h2⟩ := h
    exact (zip_all_eq_iff xs ys h1).mp ((npProd_eq_one_iff _).mp h2)
  · rintro rfl
    simp only [npCompatible, Bool.and_eq_true, beq_iff_eq]
    exact ⟨trivial, (npProd_eq_one_iff _).mpr ((zip_all_eq_iff xs xs rfl).mpr rfl)⟩

/-- Every collection operation preserves the locked flag. -/
theorem locked_applyOp (op : CollectionOp) (s : ObjectCollection)
    (h : s.fRestrictivenessIsLocked = true) :
    (applyOp op s).fRestrictivenessIsLocked = true := by
  cases op with
  | setName n => simpa [applyOp, set_collection_name] using h
  | lock => simp [applyOp, lock_restrictiveness]
  | switch => simp [applyOp, switch_restrictiveness, h]
  | tryAdd x =>
    simp only [applyOp, try_adding_an_element]
    split
    · simpa using h
    · split
      · simpa using h
      · simpa using h

/-- Operation sequences preserve the locked flag. -/
theorem locked_applyOps (ops : List CollectionOp) (s : ObjectCollection)
    (h : s.fRestrictivenessIsLocked = true) :
    (applyOps ops s).fRestrictivenessIsLocked = true := by
  induction ops generalizing s with
  | nil => simpa [applyOps] using h
  | cons op t ih =>
    have := locked_applyOp op s h
    simpa [applyOps] using ih (applyOp op s) this

/-- C1: building the aligned measurement directly with independent = [1,2,3],
reference = [10,20,30], filtered = [1,1,1] and no supplied reference model
succeeds and leaves the interpolator flag set, but the interpolator attribute
is never assigned (the built spline is overwritten by the flag), so
get_refInterpolator fails with AttributeError instead of exposing the
cubic-spline interpolant of (independent, reference). -/
theorem C1_get_refInterpolator_attribute_missing :
    okOf ((TransmitanceMeas1D.init (fun _ _ q => q) (Arr.one [10, 20, 30]) (Arr.one [1, 1, 1])
        0 0 (some (Arr.one [1, 2, 3])) none none none).map
      (fun t => (t.fInterpolator, t.refInterpolator.isSome,
        errOf (TransmitanceMeas1D.get_refInterpolator t))))
      = some (true, false, some PyErr.AttributeError) := by
  decide

/-- C3: a successful from_ragged_data call on matching 1-D pairs of length 3
stores the raw reference pair as a 3-by-2 two-column array, but stores the raw
with-filter pair with the default stacking axis 0, producing a 2-by-3
row-stacked array whose shape is not n-by-2. -/
theorem C3_raw_filtered_row_stacked :
    okOf ((TransmitanceMeas1D.from_ragged_data (fun _ _ q => q) (fun _ _ _ => (0, 0))
        (Arr.one [0, 1, 2]) (Arr.one [1, 2, 3]) (Arr.one [4, 5, 6]) (Arr.one [7, 8, 9])
        0 0 none).map (fun t => (t.raw_ref, t.raw_meas)))
      = some (some (Arr.two [[0, 1], [1, 2], [2, 3]]), some (Arr.two [[4, 5, 6], [7, 8, 9]])) ∧
    Arr.shape (Arr.two [[4, 5, 6], [7, 8, 9]]) = [2, 3] ∧
    Arr.shape (Arr.two [[4, 5, 6], [7, 8, 9]]) ≠ [3, 2] := by
  refine ⟨?_, by decide, by decide⟩
  norm_num [TransmitanceMeas1D.from_ragged_data, TransmitanceMeas1D.init, stick_together,
    np_concatenate, expand_dims, idxNot, Arr.shape, okOf, Except.map]

/-- C4: the sorting utility sorts correctly here, but it aliases the caller
array and permutes it in place, so after the call the input array is the
sorted array and not its original value. -/
theorem C4_sort_mutates_input :
    okOf (sort_bidimensional_array_mutually [[2, 0], [1, 1]] 0 0) = some [[1, 1], [2, 0]] ∧
    sort_bidimensional_array_mutually_after [[2, 0], [1, 1]] 0 0 ≠ [[2, 0], [1, 1]] := by
  refine ⟨by decide, by decide⟩

/-- C5: for the 2-by-3 array below, 2 is an in-range column index, yet axis-0
sorting by column 2 is rejected with the line error, because the source
validates the column index against the number of rows. -/
theorem C5_sort_rejects_valid_column :
    errOf (sort_bidimensional_array_mutually [[1, 2, 3], [4, 5, 6]] 0 2) = some PyErr.badLine ∧
    2 < (([[1, 2, 3], [4, 5, 6]] : List (List ℚ)).headD []).length := by
  refine ⟨by decide, by decide⟩

/-- C2: for a stored RatioMeasurement state whose reference and filtered
arrays have equal shape, whose independent array (when available) also has
that shape, and whose reference data has no zero entry, get_transmitance
returns the entrywise quotient filtered over reference and
check_compatibility holds; moreover check_compatibility is true exactly when
those shape equalities hold. -/
theorem C2_ratio_and_compatibility (t : TransmitanceMeas)
    (h1 : t.ref.shape = t.meas.shape)
    (h2 : ∀ d, t.dep = some d → t.ref.shape = d.shape)
    (h3 : ∀ x ∈ t.ref.data, x ≠ 0) :
    t.get_transmitance = Except.ok
        { shape := t.meas.shape,
          data := List.zipWith (fun m r => m / r) t.meas.data t.ref.data } ∧
      t.check_compatibility = true ∧
      ∀ s : TransmitanceMeas, s.check_compatibility = true ↔
        (s.ref.shape = s.meas.shape ∧ ∀ d, s.dep = some d → s.ref.shape = d.shape) := by
  have hc : t.check_compatibility = true := by
    unfold TransmitanceMeas.check_compatibility
    cases hd : t.dep with
    | none => simp [h1]
    | some d => simp [← h1, h2 d hd]
  refine ⟨?_, hc, ?_⟩
  · unfold TransmitanceMeas.get_transmitance
    simp [hc]
  · intro s
    unfold TransmitanceMeas.check_compatibility
    cases hd : s.dep with
    | none => simp
    | some d => simp [Bool.and_eq_true, beq_iff_eq]

/-- Witness for the ratio theorem at the concrete state c2sample. -/
theorem C2_ratio_and_compatibility_witness :
    (c2sample.ref.shape = c2sample.meas.shape) ∧
    (∀ d, c2sample.dep = some d → c2sample.ref.shape = d.shape) ∧
    (∀ x ∈ c2sample.ref.data, x ≠ 0) ∧
    (c2sample.get_transmitance = Except.ok
        { shape := c2sample.meas.shape,
          data := List.zipWith (fun m r => m / r) c2sample.meas.data c2sample.ref.data } ∧
      c2sample.check_compatibility = true ∧
      ∀ s : TransmitanceMeas, s.check_compatibility = true ↔
        (s.ref.shape = s.meas.shape ∧ ∀ d, s.dep = some d → s.ref.shape = d.shape)) :=
  ⟨by decide, by intro d h; simp [c2sample] at h; subst h; decide,
    by decide,
    C2_ratio_and_compatibility c2sample (by decide)
      (by intro d h; simp [c2sample] at h; subst h; decide) (by decide)⟩

/-- C6: the RatioMeasurement constructor rejects reference and filtered
arrays of different shapes with the shape-mismatch error ERR1, yielding no
instance, and likewise rejects a supplied independent array whose shape
differs from the shape of the reference with ERR2. -/
theorem C6_init_shape_mismatch :
    (∀ (a b : NpArray) (ro mo : ℚ) (dep : Option NpArray), a.shape ≠ b.shape →
        TransmitanceMeas.init (PyVal.arr a) (PyVal.arr b) ro mo dep
          = Except.error PyErr.ERR1) ∧
    (∀ (a b d : NpArray) (ro mo : ℚ), a.shape = b.shape → d.shape ≠ a.shape →
        TransmitanceMeas.init (PyVal.arr a) (PyVal.arr b) ro mo (some d)
          = Except.error PyErr.ERR2) := by
  constructor
  · intro a b ro mo dep h
    simp [TransmitanceMeas.init, h]
  · intro a b d ro mo h1 h2
    have h2b : d.shape ≠ b.shape := by rw [← h1]; exact h2
    simp [TransmitanceMeas.init, h1, h2b]

/-- Witness for the shape-mismatch theorem: reference of shape (5,) against
filtered of shape (4,) is rejected with ERR1. -/
theorem C6_init_shape_mismatch_witness :
    ((⟨[5], [1, 1, 1, 1, 1]⟩ : NpArray).shape ≠ (⟨[4], [1, 1, 1, 1]⟩ : NpArray).shape) ∧
    TransmitanceMeas.init (PyVal.arr ⟨[5], [1, 1, 1, 1, 1]⟩) (PyVal.arr ⟨[4], [1, 1, 1, 1]⟩)
      0 0 none = Except.error PyErr.ERR1 :=
  ⟨by decide,
    C6_init_shape_mismatch.1 ⟨[5], [1, 1, 1, 1, 1]⟩ ⟨[4], [1, 1, 1, 1]⟩ 0 0 none (by decide)⟩

/-- C7: the file-based factory treats the two parsed independent-variable
arrays as aligned exactly when they have equal length and are entrywise
equal, and its dispatch — the direct constructor on the filtered values, the
reference-file values and the reference-file independent array when aligned,
otherwise the ragged factory receiving the cubic-spline interpolant of the
third parsed file exactly when one was given — agrees with the specification
rendering from_files_spec. -/
theorem C7_from_files_dispatch (spline : List ℚ → List ℚ → ℚ → ℚ)
    (curve_fit : (ℚ → ℚ → ℚ → ℚ) → List ℚ → List ℚ → ℚ × ℚ)
    (dep_ref ref dep_meas meas : List ℚ) (third : Option (List ℚ × List ℚ)) :
    (npCompatible dep_ref dep_meas = true ↔
      (dep_ref.length = dep_meas.length ∧ dep_ref = dep_meas)) ∧
    TransmitanceMeas1D.from_files spline curve_fit dep_ref ref dep_meas meas third
      = TransmitanceMeas1D.from_files_spec spline curve_fit dep_ref ref dep_meas meas third := by
  have hiff := npCompatible_iff dep_ref dep_meas
  constructor
  · constructor
    · intro h
      have heq := hiff.mp h
      exact ⟨by rw [heq], heq⟩
    · rintro ⟨-, h⟩
      exact hiff.mpr h
  · have hb : npCompatible dep_ref dep_meas
        = (dep_ref.length == dep_meas.length && dep_ref == dep_meas) := by
      by_cases h : dep_ref = dep_meas
      · subst h
        simp [hiff.mpr rfl]
      · have l1 : npCompatible dep_ref dep_meas = false := by
          cases hc : npCompatible dep_ref dep_meas
          · rfl
          · exact absurd (hiff.mp hc) h
        have l2 : (dep_ref == dep_meas) = false := beq_eq_false_iff_ne.mpr h
        simp [l1, l2]
    unfold TransmitanceMeas1D.from_files TransmitanceMeas1D.from_files_spec
    rw [hb]

/-- C8: sticking two equal-length 1-D arrays together along axis 0 yields the
2-by-n array whose rows are the two inputs in order; and any two operands
whose sizes along the non-target axis disagree are rejected with an error. -/
theorem C8_stick_rows_and_mismatch :
    (∀ xs ys : List ℚ, xs.length = ys.length →
        stick_together (Arr.one xs) (Arr.one ys) false = Except.ok (Arr.two [xs, ys])) ∧
    (∀ (a b : Arr) (axis : Bool), a.WF → b.WF →
        Arr.sizeAlongNot axis a ≠ Arr.sizeAlongNot axis b →
        ∃ e, stick_together a b axis = Except.error e) := by
  constructor
  · intro xs ys h
    simp [stick_together, h, np_concatenate, expand_dims]
  · intro a b axis hwa hwb h
    cases a with
    | one xs =>
      cases b with
      | one ys =>
        simp only [Arr.sizeAlongNot] at h
        exact ⟨PyErr.ERR4, by simp only [stick_together]; rw [if_pos h]⟩
      | two m =>
        simp only [Arr.sizeAlongNot] at h
        exact ⟨PyErr.ERR3, by simp only [stick_together]; rw [if_pos h]⟩
    | two m =>
      cases b with
      | one ys =>
        simp only [Arr.sizeAlongNot] at h
        exact ⟨PyErr.ERR3, by simp only [stick_together]; rw [if_pos (Ne.symm h)]⟩
      | two m2 =>
        simp only [Arr.sizeAlongNot] at h
        exact ⟨PyErr.ERR2, by simp only [stick_together]; rw [if_pos h]⟩

/-- Witness for the stacking theorem: rows [1,2] and [3,4] stack to the 2-by-2
array, while [1,2] against [3,4,5] is rejected. -/
theorem C8_stick_rows_and_mismatch_witness :
    (([1, 2] : List ℚ).length = ([3, 4] : List ℚ).length) ∧
    stick_together (Arr.one [1, 2]) (Arr.one [3, 4]) false
      = Except.ok (Arr.two [[1, 2], [3, 4]]) ∧
    Arr.WF (Arr.one [1, 2]) ∧ Arr.WF (Arr.one [3, 4, 5]) ∧
    Arr.sizeAlongNot false (Arr.one [1, 2]) ≠ Arr.sizeAlongNot false (Arr.one [3, 4, 5]) ∧
    ∃ e, stick_together (Arr.one [1, 2]) (Arr.one [3, 4, 5]) false = Except.error e :=
  ⟨rfl, C8_stick_rows_and_mismatch.1 [1, 2] [3, 4] rfl, trivial, trivial, by decide,
    C8_stick_rows_and_mismatch.2 (Arr.one [1, 2]) (Arr.one [3, 4, 5]) false trivial trivial
      (by decide)⟩

/-- C9: once lock_restrictiveness has run, any sequence of collection
operations keeps the lock in place, and a subsequent switch_restrictiveness
leaves both the restriction flag and the allowed-type list unchanged. -/
theorem C9_lock_is_one_way_latch (s : ObjectCollection) (ops : List CollectionOp) :
    (switch_restrictiveness (applyOps ops (lock_restrictiveness s))).fRestrictive
        = (applyOps ops (lock_restrictiveness s)).fRestrictive ∧
      (switch_restrictiveness (applyOps ops (lock_restrictiveness s))).member_types
        = (applyOps ops (lock_restrictiveness s)).member_types := by
  have hl : (applyOps ops (lock_restrictiveness s)).fRestrictivenessIsLocked = true :=
    locked_applyOps ops _ (by simp [lock_restrictiveness])
  have hs : switch_restrictiveness (applyOps ops (lock_restrictiveness s))
      = applyOps ops (lock_restrictiveness s) := by
    simp [switch_restrictiveness, hl]
  rw [hs]
  exact ⟨rfl, rfl⟩

attribute [irreducible] argsort

/-- Axis-0 sorting with an in-range line (in the sense checked by the source,
against the row count) succeeds and returns rows of the input, one original
row for each output position. -/
theorem sort_axis0_rows (m : List (List ℚ)) (x_col : ℕ) (hx : x_col < m.length) :
    ∃ d, sort_bidimensional_array_mutually m 0 (x_col : ℤ) = Except.ok d ∧
      d.length = m.length ∧
      ∀ i < m.length, ∃ j, j < m.length ∧ d.getD i [] = m.getD j [] := by
  have htn : ((x_col : ℤ)).toNat = x_col := by omega
  refine ⟨(argsort (m.map (fun r => r.getD x_col 0))).map (fun j => m.getD j []), ?_, ?_, ?_⟩
  · unfold sort_bidimensional_array_mutually
    rw [if_neg (by omega), if_neg (by omega), if_neg (by omega), if_neg (by omega), if_pos rfl]
    simp only [htn]
  · rw [List.length_map, argsort_length, List.length_map]
  · intro i hi
    refine ⟨(argsort (m.map (fun r => r.getD x_col 0))).getD i 0, ?_, ?_⟩
    · have hkey : i < (m.map (fun r => r.getD x_col 0)).length := by
        rw [List.length_map]; exact hi
      have := argsort_getD_lt (m.map (fun r => r.getD x_col 0)) i hkey
      rwa [List.length_map] at this
    · exact list_getD_map (fun j => m.getD j []) (argsort (m.map (fun r => r.getD x_col 0)))
        i 0 [] (by rw [argsort_length, List.length_map]; exact hi)

/-- C10: for every parsed table and every y column, the dark-current offset
subtracted by the parser is the baseline-row entry at column index 1 — not
the baseline-row entry at column y_col — and every output pair comes from an
original data row with exactly that fixed column-1 value subtracted from its
y_col entry.  The bound on x_col against the data row count is what the
sorting step inside the parser demands. -/
theorem C10_dark_current_from_column_one (table : List (List ℚ)) (x_col y_col : ℕ)
    (hx : x_col < (table.drop 1).length) (hxy : x_col ≠ y_col)
    (hy : ∀ r ∈ table.drop 1, y_col < r.length) :
    ∃ xs ys, default_parse table x_col y_col = Except.ok (xs, ys) ∧
      xs.length = (table.drop 1).length ∧ ys.length = (table.drop 1).length ∧
      ∀ i < (table.drop 1).length, ∃ j, j < (table.drop 1).length ∧
        xs.getD i 0 = ((table.drop 1).getD j []).getD x_col 0 ∧
        ys.getD i 0 = ((table.drop 1).getD j []).getD y_col 0
          - (table.getD 0 []).getD 1 0 := by
  have hlen0 : ((table.drop 1).map
      (fun r => r.set y_col (r.getD y_col 0 - (table.getD 0 []).getD 1 0))).length
      = (table.drop 1).length := List.length_map _ _
  obtain ⟨d, hsort, hdlen, hmem⟩ := sort_axis0_rows
    ((table.drop 1).map (fun r => r.set y_col (r.getD y_col 0 - (table.getD 0 []).getD 1 0)))
    x_col (by rw [hlen0]; exact hx)
  refine ⟨d.map (fun r => r.getD x_col 0), d.map (fun r => r.getD y_col 0), ?_, ?_, ?_, ?_⟩
  · simp only [default_parse]
    rw [hsort]
  · rw [List.length_map, hdlen, hlen0]
  · rw [List.length_map, hdlen, hlen0]
  · intro i hi
    have hi' : i < ((table.drop 1).map
        (fun r => r.set y_col (r.getD y_col 0 - (table.getD 0 []).getD 1 0))).length := by
      rw [hlen0]; exact hi
    obtain ⟨j, hj, hrow⟩ := hmem i hi'
    have hj' : j < (table.drop 1).length := by rwa [hlen0] at hj
    have hdi : i < d.length := by rw [hdlen]; exact hi'
    have hrowlen : y_col < ((table.drop 1).getD j []).length :=
      hy _ (list_getD_mem _ _ _ hj')
    have hdata_j : ((table.drop 1).map
        (fun r => r.set y_col (r.getD y_col 0 - (table.getD 0 []).getD 1 0))).getD j []
        = ((table.drop 1).getD j []).set y_col
            (((table.drop 1).getD j []).getD y_col 0 - (table.getD 0 []).getD 1 0) :=
      list_getD_map _ _ _ [] [] hj'
    refine ⟨j, hj', ?_, ?_⟩
    · rw [list_getD_map (fun r => r.getD x_col 0) d i [] 0 hdi, hrow, hdata_j,
        list_getD_set_ne _ _ _ _ _ (Ne.symm hxy)]
    · rw [list_getD_map (fun r => r.getD y_col 0) d i [] 0 hdi, hrow, hdata_j,
        list_getD_set_self _ _ _ _ hrowlen]

/-- Witness for the dark-current theorem at the concrete table c10table with
x column 2 and y column 0. -/
theorem C10_dark_current_witness :
    (2 < (c10table.drop 1).length) ∧ (2 ≠ 0) ∧
    (∀ r ∈ c10table.drop 1, 0 < r.length) ∧
    (∃ xs ys, default_parse c10table 2 0 = Except.ok (xs, ys) ∧
      xs.length = (c10table.drop 1).length ∧ ys.length = (c10table.drop 1).length ∧
      ∀ i < (c10table.drop 1).length, ∃ j, j < (c10table.drop 1).length ∧
        xs.getD i 0 = ((c10table.drop 1).getD j []).getD 2 0 ∧
        ys.getD i 0 = ((c10table.drop 1).getD j []).getD 0 0
          - (c10table.getD 0 []).getD 1 0) :=
  ⟨by decide, by decide, by decide,
    C10_dark_current_from_column_one c10table 2 0 (by decide) (by decide) (by decide)⟩
